import Mathlib

/-!
Shallow embedding of the toolchain-resolution core of
`src/substrate/utils/wasm-builder/src/lib.rs`.

External process probes (running `cargo --version`, `cargo rustc --print
target-list`, `rustup toolchain list`) are modelled by a `ProbeWorld`
record of functions from the invoked (program, fixed args) pair to the
probe outcome, which is exactly the information the source freezes into a
`CargoCommand` at construction time.  Environment variables read by the
resolver are gathered into a `BuildEnv` record and passed explicitly.
-/

namespace WasmBuilder

/-- Modelled from the spec: the `Version` type of the `version` module
(`src/substrate/utils/wasm-builder/src/version.rs`, which is declared by
`mod version` but is not among the sources): a semantic `(major, minor,
patch)` triple plus a boolean nightly/pre-release flag. -/
structure Version where
  major : Nat
  minor : Nat
  patch : Nat
  is_nightly : Bool
deriving Repr, DecidableEq

/-- Modelled from the spec: the ordering of `Version` used to rank
candidates is lexicographic on `(major, minor, patch)` only; the nightly
flag is metadata and is not part of the ordering. -/
def Version.comp (a b : Version) : Ordering :=
  (compare a.major b.major).then ((compare a.minor b.minor).then (compare a.patch b.patch))

/-- Boolean `a ≤ b` for the version ordering, used by the sort. -/
def Version.leB (a b : Version) : Bool :=
  match Version.comp a b with
  | Ordering.gt => false
  | _ => true

/-- Outcomes of the external-process probes, as a function of the probed
program and its fixed leading arguments.  `version_probe` stands for
running `program args --version`, decoding stdout and parsing it with
`Version::extract` (the parser lives in the missing `version` module, so
its result is kept abstract: any `Option Version` outcome is possible).
`target_list_probe` stands for the trimmed stdout of
`program args rustc -Z unstable-options --print target-list` split on
newlines (the source collects the pieces into a `BTreeSet<String>`; a
`List String` is kept here, membership in it is the
exact-string-equality membership `BTreeSet::contains` provides); `none`
on any failure.  `toolchain_lines` stands for the decoded stdout lines
of `rustup toolchain list`, `none` when that command fails. -/
structure ProbeWorld where
  version_probe : String → List String → Option Version
  target_list_probe : String → List String → Option (List String)
  toolchain_lines : Option (List String)

/-- Environment variables consumed by the resolver. `rustc_bootstrap`
records whether `RUSTC_BOOTSTRAP` is set (`env::var(..).is_ok()`). -/
structure BuildEnv where
  cargo_var : String
  wasm_build_toolchain : Option String
  rustc_bootstrap : Bool

/-- The `RuntimeTarget` enum. -/
inductive RuntimeTarget where
  | Wasm
  | Riscv
deriving Repr, DecidableEq

/-- `RuntimeTarget::rustc_target`. -/
def RuntimeTarget.rustc_target : RuntimeTarget → String
  | RuntimeTarget.Wasm => "wasm32-unknown-unknown"
  | RuntimeTarget.Riscv => "riscv32ema-unknown-none-elf"

/-- `RuntimeTarget::build_subdirectory`. -/
def RuntimeTarget.build_subdirectory : RuntimeTarget → String
  | RuntimeTarget.Wasm => "wbuild"
  | RuntimeTarget.Riscv => "rbuild"

/-- The `CargoCommand` struct: program, fixed leading arguments, and the
probe results frozen at construction. -/
structure CargoCommand where
  program : String
  args : List String
  version : Option Version
  target_list : Option (List String)
deriving Repr, DecidableEq

/-- `CargoCommand::extract_version`: run the version probe. -/
def CargoCommand.extract_version (w : ProbeWorld) (program : String)
    (args : List String) : Option Version :=
  w.version_probe program args

/-- `CargoCommand::extract_target_list`: run the target-list probe. -/
def CargoCommand.extract_target_list (w : ProbeWorld) (program : String)
    (args : List String) : Option (List String) :=
  w.target_list_probe program args

/-- `CargoCommand::new`. -/
def CargoCommand.new (w : ProbeWorld) (program : String) : CargoCommand :=
  { program := program
    args := []
    version := CargoCommand.extract_version w program []
    target_list := CargoCommand.extract_target_list w program [] }

/-- `CargoCommand::new_with_args`. -/
def CargoCommand.new_with_args (w : ProbeWorld) (program : String)
    (args : List String) : CargoCommand :=
  { program := program
    args := args
    version := CargoCommand.extract_version w program args
    target_list := CargoCommand.extract_target_list w program args }

/-- `CargoCommand::version` (the accessor). -/
def CargoCommand.versionOf (self : CargoCommand) : Option Version :=
  self.version

/-- `CargoCommand::supports_nightly_features`; `bootstrap` is whether
`RUSTC_BOOTSTRAP` is set. -/
def CargoCommand.supports_nightly_features (self : CargoCommand)
    (bootstrap : Bool) : Bool :=
  (self.version.map (fun version => version.is_nightly)).getD false || bootstrap

/-- `CargoCommand::supports_substrate_runtime_env_riscv`. -/
def CargoCommand.supports_substrate_runtime_env_riscv (self : CargoCommand) : Bool :=
  match self.target_list with
  | none => false
  | some target_list => target_list.contains "riscv32ema-unknown-none-elf"

/-- `CargoCommand::supports_substrate_runtime_env_wasm`; `bootstrap` is
whether `RUSTC_BOOTSTRAP` is set in the environment. -/
def CargoCommand.supports_substrate_runtime_env_wasm (self : CargoCommand)
    (bootstrap : Bool) : Bool :=
  if bootstrap then
    true
  else
    match self.versionOf with
    | none => false
    | some version =>
      decide (version.major > 1) ||
        (decide (version.major = 1) && decide (version.minor ≥ 68)) ||
        version.is_nightly

/-- `CargoCommand::supports_substrate_runtime_env`. -/
def CargoCommand.supports_substrate_runtime_env (self : CargoCommand)
    (bootstrap : Bool) (target : RuntimeTarget) : Bool :=
  match target with
  | RuntimeTarget.Wasm => self.supports_substrate_runtime_env_wasm bootstrap
  | RuntimeTarget.Riscv => self.supports_substrate_runtime_env_riscv

/-- The part of `line` before the first space, dropping e.g. a trailing
" (default)" annotation: `line.split(" ").next().unwrap()`. -/
def firstSpaceComponent (line : String) : String :=
  String.mk (line.data.takeWhile (fun c => c ≠ ' '))

/-- One iteration of the loop in `get_rustup_command`: take the part of
the line before the first space, build the `rustup run <id> cargo`
candidate, skip it (`continue`) unless it supports the target and its
version was probed; otherwise record `(version, identifier)`. -/
def rustupEntry (w : ProbeWorld) (bootstrap : Bool) (target : RuntimeTarget)
    (line : String) : Option (Version × String) :=
  let rustup_version := firstSpaceComponent line
  let cmd := CargoCommand.new_with_args w "rustup" ["run", rustup_version, "cargo"]
  if cmd.supports_substrate_runtime_env bootstrap target then
    match cmd.versionOf with
    | none => none
    | some cargo_version => some (cargo_version, rustup_version)
  else
    none

/-- Stable insertion into a list sorted ascending by the version key:
the new element goes before the first strictly greater key, after equal
keys, matching the stability of `Vec::sort_by_key`. -/
def insertByVersion (x : Version × String) :
    List (Version × String) → List (Version × String)
  | [] => [x]
  | y :: ys =>
    if Version.leB x.1 y.1 then x :: y :: ys else y :: insertByVersion x ys

/-- `versions.sort_by_key(|v| v.0)`: stable sort ascending by version. -/
def sortByVersion : List (Version × String) → List (Version × String)
  | [] => []
  | x :: xs => insertByVersion x (sortByVersion xs)

/-- `get_rustup_command`: enumerate the installed toolchains, keep the
qualifying ones with a probed version, sort by version and rebuild the
command for the identifier of the last (greatest) entry. -/
def get_rustup_command (w : ProbeWorld) (bootstrap : Bool)
    (target : RuntimeTarget) : Option CargoCommand :=
  match w.toolchain_lines with
  | none => none
  | some lines =>
    let versions := lines.filterMap (rustupEntry w bootstrap target)
    match (sortByVersion versions).getLast? with
    | none => none
    | some v =>
      some (CargoCommand.new_with_args w "rustup" ["run", v.2, "cargo"])

/-- `get_cargo_command`: pinned toolchain first and unconditionally,
then the `CARGO` candidate, then plain `cargo`, each gated by
`supports_substrate_runtime_env`; otherwise the rustup search, falling
back to the default cargo when that also fails. -/
def get_cargo_command (w : ProbeWorld) (env : BuildEnv)
    (target : RuntimeTarget) : CargoCommand :=
  let env_cargo := CargoCommand.new w env.cargo_var
  let default_cargo := CargoCommand.new w "cargo"
  match env.wasm_build_toolchain with
  | some t => CargoCommand.new_with_args w "rustup" ["run", t, "cargo"]
  | none =>
    if env_cargo.supports_substrate_runtime_env env.rustc_bootstrap target then
      env_cargo
    else if default_cargo.supports_substrate_runtime_env env.rustc_bootstrap target then
      default_cargo
    else
      (get_rustup_command w env.rustc_bootstrap target).getD default_cargo

/-- `runtime_target`, over the value of `SUBSTRATE_RUNTIME_TARGET`;
`Except.error c` models `std::process::exit(c)`. -/
def runtime_target (value : Option String) : Except Nat RuntimeTarget :=
  match value with
  | none => Except.ok RuntimeTarget.Wasm
  | some value =>
    if value = "wasm" then Except.ok RuntimeTarget.Wasm
    else if value = "riscv" then Except.ok RuntimeTarget.Riscv
    else Except.error 1

/-- `get_bool_environment_variable`, over the variable value;
`Except.error c` models `std::process::exit(c)`. -/
def get_bool_environment_variable (value : Option String) :
    Except Nat (Option Bool) :=
  match value with
  | none => Except.ok none
  | some value =>
    if value = "1" then Except.ok (some true)
    else if value = "0" then Except.ok (some false)
    else Except.error 1

/-- `build_std_required`, over the values of `SUBSTRATE_RUNTIME_TARGET`
and `WASM_BUILD_STD` (`runtime_target()` is evaluated first, as in the
source, so its fatal exit propagates). -/
def build_std_required (targetValue : Option String)
    (stdValue : Option String) : Except Nat Bool := do
  let target ← runtime_target targetValue
  let b ← get_bool_environment_variable stdValue
  pure (b.getD (target = RuntimeTarget.Wasm))

/-- A world in which every probe fails: no version, no target list, and
`rustup toolchain list` itself fails. -/
def noProbeWorld : ProbeWorld :=
  { version_probe := fun _ _ => none
    target_list_probe := fun _ _ => none
    toolchain_lines := some []
    }

/-- An unpinned environment with `CARGO` pointing at a cargo binary,
`WASM_BUILD_TOOLCHAIN` unset and `RUSTC_BOOTSTRAP` unset. -/
def plainEnv : BuildEnv :=
  { cargo_var := "/usr/bin/cargo"
    wasm_build_toolchain := none
    rustc_bootstrap := false }

/-- A world with three installed rustup toolchains reporting versions
1.66.0 (stable), 1.70.0-nightly and 1.68.0 (stable); no default or
`CARGO` cargo is usable and no target lists are reported. -/
def rankWorld : ProbeWorld :=
  { version_probe := fun program args =>
      if program = "rustup" then
        if args = ["run", "1.66.0", "cargo"] then some ⟨1, 66, 0, false⟩
        else if args = ["run", "1.70.0-nightly", "cargo"] then some ⟨1, 70, 0, true⟩
        else if args = ["run", "1.68.0", "cargo"] then some ⟨1, 68, 0, false⟩
        else none
      else none
    target_list_probe := fun _ _ => none
    toolchain_lines := some ["1.66.0", "1.70.0-nightly", "1.68.0"] }

/-- A world with two installed rustup toolchains that both list the
RISC-V runtime target: `custom`, whose version probe fails, and `good`,
whose version probe succeeds. -/
def riscvWorld : ProbeWorld :=
  { version_probe := fun program args =>
      if program = "rustup" then
        if args = ["run", "good", "cargo"] then some ⟨1, 75, 0, true⟩
        else none
      else none
    target_list_probe := fun program args =>
      if program = "rustup" then
        if args = ["run", "good", "cargo"] then
          some ["riscv32ema-unknown-none-elf", "wasm32-unknown-unknown"]
        else if args = ["run", "custom", "cargo"] then
          some ["riscv32ema-unknown-none-elf"]
        else none
      else none
    toolchain_lines := some ["custom", "good"] }

/-- A world in which the `CARGO`-designated cargo (`/opt/cargo`) reports
a nightly 1.70.0 and the default `cargo` reports a stable 1.69.0. -/
def dualWorld : ProbeWorld :=
  { version_probe := fun program _ =>
      if program = "/opt/cargo" then some ⟨1, 70, 0, true⟩
      else if program = "cargo" then some ⟨1, 69, 0, false⟩
      else none
    target_list_probe := fun _ _ => none
    toolchain_lines := none }

/-- An environment pinning the toolchain `nightly-2024-01-01` via
`WASM_BUILD_TOOLCHAIN`. -/
def pinnedEnv : BuildEnv :=
  { cargo_var := "/usr/bin/cargo"
    wasm_build_toolchain := some "nightly-2024-01-01"
    rustc_bootstrap := false }

/-- An environment whose `CARGO` points at `/opt/cargo`, unpinned. -/
def optCargoEnv : BuildEnv :=
  { cargo_var := "/opt/cargo"
    wasm_build_toolchain := none
    rustc_bootstrap := false }

/-! Basic facts about the version ordering and the sort. -/

lemma Version.comp_eq_gt_iff (a b : Version) : Version.comp a b = Ordering.gt ↔
    (b.major < a.major ∨ (a.major = b.major ∧
      (b.minor < a.minor ∨ (a.minor = b.minor ∧ b.patch < a.patch)))) := by
  unfold Version.comp
  rcases Nat.lt_trichotomy a.major b.major with h1 | h1 | h1
  · simp [Nat.compare_eq_lt.mpr h1, Ordering.then]
    omega
  · rcases Nat.lt_trichotomy a.minor b.minor with h2 | h2 | h2
    · simp [Nat.compare_eq_eq.mpr h1, Nat.compare_eq_lt.mpr h2, Ordering.then]
      omega
    · simp [Nat.compare_eq_eq.mpr h1, Nat.compare_eq_eq.mpr h2, Ordering.then,
        Nat.compare_eq_gt]
      omega
    · simp [Nat.compare_eq_eq.mpr h1, Nat.compare_eq_gt.mpr h2, Ordering.then]
      omega
  · simp [Nat.compare_eq_gt.mpr h1, Ordering.then]
    omega

lemma Version.leB_eq_true_iff_comp (a b : Version) :
    Version.leB a b = true ↔ Version.comp a b ≠ Ordering.gt := by
  unfold Version.leB
  cases h : Version.comp a b <;> simp

lemma Version.leB_iff (a b : Version) : Version.leB a b = true ↔
    (a.major < b.major ∨ (a.major = b.major ∧
      (a.minor < b.minor ∨ (a.minor = b.minor ∧ a.patch ≤ b.patch)))) := by
  rw [Version.leB_eq_true_iff_comp, Ne, Version.comp_eq_gt_iff]
  omega

lemma Version.leB_total (a b : Version) :
    Version.leB a b = true ∨ Version.leB b a = true := by
  rw [Version.leB_iff, Version.leB_iff]
  omega

lemma Version.leB_trans {a b c : Version} (h1 : Version.leB a b = true)
    (h2 : Version.leB b c = true) : Version.leB a c = true := by
  rw [Version.leB_iff] at h1 h2 ⊢
  omega

lemma mem_insertByVersion {x a : Version × String} {l : List (Version × String)} :
    x ∈ insertByVersion a l ↔ x = a ∨ x ∈ l := by
  induction l with
  | nil => simp [insertByVersion]
  | cons y ys ih =>
    cases h : Version.leB a.1 y.1 with
    | true => simp [insertByVersion, h]
    | false =>
      simp only [insertByVersion, h, Bool.false_eq_true, if_false, List.mem_cons, ih]
      tauto

lemma mem_sortByVersion {x : Version × String} {l : List (Version × String)} :
    x ∈ sortByVersion l ↔ x ∈ l := by
  induction l with
  | nil => simp [sortByVersion]
  | cons y ys ih => simp [sortByVersion, mem_insertByVersion, ih]

lemma insertByVersion_ne_nil (a : Version × String) (l : List (Version × String)) :
    insertByVersion a l ≠ [] := by
  cases l with
  | nil => simp [insertByVersion]
  | cons y ys =>
    unfold insertByVersion
    cases h : Version.leB a.1 y.1 <;> simp [h]

lemma Version.leB_refl (a : Version) : Version.leB a a = true := by
  rw [Version.leB_iff]
  omega

lemma getLast?_insertByVersion_max (a : Version × String)
    (l : List (Version × String)) :
    (∀ m, l.getLast? = some m → ∀ x ∈ l, Version.leB x.1 m.1 = true) →
    ∀ m, (insertByVersion a l).getLast? = some m →
      ∀ x ∈ a :: l, Version.leB x.1 m.1 = true := by
  induction l with
  | nil =>
    intro _ m hm x hx
    simp only [insertByVersion, List.getLast?_singleton, Option.some.injEq] at hm
    simp only [List.mem_cons, List.not_mem_nil, or_false] at hx
    subst hm
    subst hx
    exact Version.leB_refl x.1
  | cons y ys ih =>
    intro hl m hm x hx
    by_cases hle : Version.leB a.1 y.1 = true
    · -- the new element is inserted at the head, the last element is unchanged
      have hstep : insertByVersion a (y :: ys) = a :: y :: ys := by
        unfold insertByVersion
        rw [if_pos hle]
      rw [hstep, List.getLast?_cons_cons] at hm
      have hmax := hl m hm
      rcases List.mem_cons.mp hx with rfl | hx2
      · exact Version.leB_trans hle (hmax y (List.mem_cons_self y ys))
      · exact hmax x hx2
    · -- the new element goes further in
      have hle' : Version.leB y.1 a.1 = true := by
        rcases Version.leB_total a.1 y.1 with h | h
        · exact absurd h hle
        · exact h
      have hstep : insertByVersion a (y :: ys) = y :: insertByVersion a ys := by
        simp [insertByVersion, hle]
      rw [hstep] at hm
      cases ys with
      | nil =>
        simp only [insertByVersion] at hm
        rw [List.getLast?_cons_cons, List.getLast?_singleton] at hm
        injection hm with hm
        subst hm
        rcases List.mem_cons.mp hx with rfl | hx2
        · exact Version.leB_refl x.1
        · rcases List.mem_cons.mp hx2 with rfl | hx3
          · exact hle'
          · exact absurd hx3 (List.not_mem_nil x)
      | cons z zs =>
        have hm2 : (insertByVersion a (z :: zs)).getLast? = some m := by
          cases hi : insertByVersion a (z :: zs) with
          | nil => exact absurd hi (insertByVersion_ne_nil a (z :: zs))
          | cons b bs =>
            rw [hi] at hm
            rw [List.getLast?_cons_cons] at hm
            exact hm
        have hys_max : ∀ m, (z :: zs).getLast? = some m →
            ∀ x ∈ z :: zs, Version.leB x.1 m.1 = true := by
          intro m hm x hx
          exact hl m (by rw [List.getLast?_cons_cons]; exact hm) x
            (List.mem_cons_of_mem y hx)
        have hrec := ih hys_max m hm2
        rcases List.mem_cons.mp hx with rfl | hx2
        · exact hrec x (List.mem_cons_self x (z :: zs))
        · rcases List.mem_cons.mp hx2 with rfl | hx3
          · exact Version.leB_trans hle' (hrec a (List.mem_cons_self a (z :: zs)))
          · exact hrec x (List.mem_cons_of_mem a hx3)

lemma getLast?_sortByVersion_max (l : List (Version × String)) :
    ∀ m, (sortByVersion l).getLast? = some m →
      ∀ x ∈ l, Version.leB x.1 m.1 = true := by
  induction l with
  | nil => intro m hm; simp [sortByVersion] at hm
  | cons a as ih =>
    intro m hm x hx
    have hall := getLast?_insertByVersion_max a (sortByVersion as)
      (fun m hm x hx => ih m hm x (mem_sortByVersion.mp hx)) m hm
    rcases List.mem_cons.mp hx with rfl | hx
    · exact hall x (List.mem_cons_self x (sortByVersion as))
    · exact hall x (List.mem_cons_of_mem a (mem_sortByVersion.mpr hx))

lemma getLast?_mem_of_sortByVersion {l : List (Version × String)}
    {m : Version × String} (hm : (sortByVersion l).getLast? = some m) :
    m ∈ l := by
  have hmem : m ∈ sortByVersion l := by
    rcases List.mem_getLast?_eq_getLast (Option.mem_def.mpr hm) with ⟨h, hEq⟩
    exact hEq ▸ List.getLast_mem h
  exact mem_sortByVersion.mp hmem

/-- Structure of a successful rustup search: the result is rebuilt from
the identifier of some recorded entry whose version is maximal among all
recorded entries. -/
lemma get_rustup_command_eq_some {w : ProbeWorld} {b : Bool}
    {t : RuntimeTarget} {cmd : CargoCommand}
    (h : get_rustup_command w b t = some cmd) :
    ∃ lines, w.toolchain_lines = some lines ∧
      ∃ chosen ∈ lines.filterMap (rustupEntry w b t),
        cmd = CargoCommand.new_with_args w "rustup" ["run", chosen.2, "cargo"] ∧
        ∀ p ∈ lines.filterMap (rustupEntry w b t),
          Version.leB p.1 chosen.1 = true := by
  unfold get_rustup_command at h
  cases hl : w.toolchain_lines with
  | none => rw [hl] at h; exact absurd h (by simp)
  | some lines =>
    rw [hl] at h
    dsimp only at h
    refine ⟨lines, rfl, ?_⟩
    cases hlast : (sortByVersion (lines.filterMap (rustupEntry w b t))).getLast? with
    | none => rw [hlast] at h; exact absurd h (by simp)
    | some chosen =>
      rw [hlast] at h
      simp only [Option.some.injEq] at h
      exact ⟨chosen, getLast?_mem_of_sortByVersion hlast, h.symm,
        getLast?_sortByVersion_max _ chosen hlast⟩

/-- An entry recorded by the rustup loop comes from a candidate that
supports the target and whose version probe succeeded; rebuilding the
command from the recorded identifier reproduces that candidate. -/
lemma rustupEntry_eq_some {w : ProbeWorld} {b : Bool} {t : RuntimeTarget}
    {line : String} {chosen : Version × String}
    (h : rustupEntry w b t line = some chosen) :
    (CargoCommand.new_with_args w "rustup"
        ["run", chosen.2, "cargo"]).version = some chosen.1 ∧
    (CargoCommand.new_with_args w "rustup"
        ["run", chosen.2, "cargo"]).supports_substrate_runtime_env b t = true := by
  unfold rustupEntry at h
  set rv := firstSpaceComponent line with hrv
  by_cases hsup : (CargoCommand.new_with_args w "rustup"
      ["run", rv, "cargo"]).supports_substrate_runtime_env b t = true
  · rw [if_pos hsup] at h
    cases hv : (CargoCommand.new_with_args w "rustup" ["run", rv, "cargo"]).versionOf with
    | none => rw [hv] at h; exact absurd h (by simp)
    | some v =>
      rw [hv] at h
      simp only [Option.some.injEq] at h
      have h2 : chosen.2 = rv := by rw [← h]
      have h1 : chosen.1 = v := by rw [← h]
      rw [h2, h1]
      exact ⟨hv, hsup⟩
  · rw [if_neg hsup] at h
    exact absurd h (by simp)

/-- Claim C1 counterexample: in a world where nothing qualifies (no
pinned toolchain, neither cargo candidate supports Wasm, and the rustup
search comes up empty), `get_cargo_command` still returns a command,
namely the default cargo, rather than yielding no result. -/
theorem resolver_returns_default_cargo_when_nothing_qualifies_cex :
    (CargoCommand.new noProbeWorld plainEnv.cargo_var).supports_substrate_runtime_env
        plainEnv.rustc_bootstrap RuntimeTarget.Wasm = false ∧
    (CargoCommand.new noProbeWorld "cargo").supports_substrate_runtime_env
        plainEnv.rustc_bootstrap RuntimeTarget.Wasm = false ∧
    get_rustup_command noProbeWorld plainEnv.rustc_bootstrap RuntimeTarget.Wasm = none ∧
    get_cargo_command noProbeWorld plainEnv RuntimeTarget.Wasm =
      CargoCommand.new noProbeWorld "cargo" :=
  ⟨rfl, rfl, rfl, rfl⟩

/-- Claim C1 (amended): when no candidate qualifies at any step, the
rustup search (`get_rustup_command`) yields no result, and
`get_cargo_command` falls back to returning the default cargo command
instead of yielding no result. -/
theorem resolver_falls_back_to_default_cargo (w : ProbeWorld) (env : BuildEnv)
    (t : RuntimeTarget)
    (hpin : env.wasm_build_toolchain = none)
    (henv : (CargoCommand.new w env.cargo_var).supports_substrate_runtime_env
      env.rustc_bootstrap t = false)
    (hdef : (CargoCommand.new w "cargo").supports_substrate_runtime_env
      env.rustc_bootstrap t = false)
    (hrustup : get_rustup_command w env.rustc_bootstrap t = none) :
    get_cargo_command w env t = CargoCommand.new w "cargo" := by
  unfold get_cargo_command
  rw [hpin]
  dsimp only
  rw [henv, hdef, hrustup]
  simp

/-- Claim C1 witness: the fallback at a concrete no-candidate world. -/
theorem resolver_falls_back_to_default_cargo_witness :
    get_cargo_command noProbeWorld plainEnv RuntimeTarget.Wasm =
      CargoCommand.new noProbeWorld "cargo" :=
  resolver_falls_back_to_default_cargo noProbeWorld plainEnv RuntimeTarget.Wasm
    rfl rfl rfl rfl

/-- Claim C2: ranking among installed toolchains is purely numeric: a
successful rustup search returns the rebuilt command of a recorded entry
whose version is maximal in the numeric `(major, minor, patch)` order
over all recorded entries; concretely, among installed toolchains
1.66.0, 1.70.0-nightly and 1.68.0 the 1.70.0-nightly one is returned for
the Wasm target kind. -/
theorem rustup_ranking_is_numeric_max :
    (∀ (w : ProbeWorld) (b : Bool) (t : RuntimeTarget) (lines : List String)
        (cmd : CargoCommand),
      w.toolchain_lines = some lines →
      get_rustup_command w b t = some cmd →
      ∃ chosen ∈ lines.filterMap (rustupEntry w b t),
        cmd = CargoCommand.new_with_args w "rustup" ["run", chosen.2, "cargo"] ∧
        ∀ p ∈ lines.filterMap (rustupEntry w b t),
          Version.leB p.1 chosen.1 = true) ∧
    get_rustup_command rankWorld false RuntimeTarget.Wasm =
      some (CargoCommand.new_with_args rankWorld "rustup"
        ["run", "1.70.0-nightly", "cargo"]) := by
  constructor
  · intro w b t lines cmd hl h
    rcases get_rustup_command_eq_some h with ⟨lines2, hl2, hrest⟩
    rw [hl] at hl2
    cases hl2
    exact hrest
  · decide

/-- Claim C2 witness: the general maximality statement instantiated at
the concrete three-toolchain world. -/
theorem rustup_ranking_is_numeric_max_witness :
    ∃ chosen ∈ (["1.66.0", "1.70.0-nightly", "1.68.0"] : List String).filterMap
        (rustupEntry rankWorld false RuntimeTarget.Wasm),
      CargoCommand.new_with_args rankWorld "rustup"
          ["run", "1.70.0-nightly", "cargo"] =
        CargoCommand.new_with_args rankWorld "rustup" ["run", chosen.2, "cargo"] ∧
      ∀ p ∈ (["1.66.0", "1.70.0-nightly", "1.68.0"] : List String).filterMap
          (rustupEntry rankWorld false RuntimeTarget.Wasm),
        Version.leB p.1 chosen.1 = true :=
  rustup_ranking_is_numeric_max.1 rankWorld false RuntimeTarget.Wasm
    ["1.66.0", "1.70.0-nightly", "1.68.0"]
    (CargoCommand.new_with_args rankWorld "rustup" ["run", "1.70.0-nightly", "cargo"])
    rfl rustup_ranking_is_numeric_max.2

/-- Claim C3: the ordering on `Version` is independent of the nightly
flag: two versions with equal `(major, minor, patch)` compare as equal
for any combination of nightly flags, so neither ranks above the other. -/
theorem version_ordering_ignores_nightly_flag :
    ∀ (major minor patch : Nat) (n1 n2 : Bool),
      Version.comp ⟨major, minor, patch, n1⟩ ⟨major, minor, patch, n2⟩ =
        Ordering.eq ∧
      Version.leB ⟨major, minor, patch, n1⟩ ⟨major, minor, patch, n2⟩ = true ∧
      Version.leB ⟨major, minor, patch, n2⟩ ⟨major, minor, patch, n1⟩ = true := by
  intro major minor patch n1 n2
  refine ⟨?_, ?_, ?_⟩
  · unfold Version.comp
    simp [Nat.compare_eq_eq.mpr rfl, Ordering.then]
  · rw [Version.leB_iff]
    dsimp only
    omega
  · rw [Version.leB_iff]
    dsimp only
    omega

/-- Claim C4: a toolchain pinned via `WASM_BUILD_TOOLCHAIN` is returned
unconditionally as `rustup run <toolchain> cargo`, for every world —
including worlds where that candidate probes no version and fails every
`supports` check. -/
theorem pinned_toolchain_returned_unconditionally (w : ProbeWorld)
    (env : BuildEnv) (t : RuntimeTarget) (toolchain : String)
    (hpin : env.wasm_build_toolchain = some toolchain) :
    get_cargo_command w env t =
      CargoCommand.new_with_args w "rustup" ["run", toolchain, "cargo"] := by
  unfold get_cargo_command
  rw [hpin]

/-- Claim C4 witness: with everything unprobeable, the pinned toolchain
is still returned, its probed version is absent, and its supports check
fails for both target kinds. -/
theorem pinned_toolchain_returned_unconditionally_witness :
    get_cargo_command noProbeWorld pinnedEnv RuntimeTarget.Wasm =
      CargoCommand.new_with_args noProbeWorld "rustup"
        ["run", "nightly-2024-01-01", "cargo"] ∧
    (CargoCommand.new_with_args noProbeWorld "rustup"
        ["run", "nightly-2024-01-01", "cargo"]).version = none ∧
    (CargoCommand.new_with_args noProbeWorld "rustup"
        ["run", "nightly-2024-01-01", "cargo"]).supports_substrate_runtime_env
      pinnedEnv.rustc_bootstrap RuntimeTarget.Wasm = false ∧
    (CargoCommand.new_with_args noProbeWorld "rustup"
        ["run", "nightly-2024-01-01", "cargo"]).supports_substrate_runtime_env
      pinnedEnv.rustc_bootstrap RuntimeTarget.Riscv = false :=
  ⟨pinned_toolchain_returned_unconditionally noProbeWorld pinnedEnv
      RuntimeTarget.Wasm "nightly-2024-01-01" rfl,
    rfl, rfl, rfl⟩

/-- Claim C5: the Wasm supports predicate is false with no probed
version, true for probed versions at least 1.68.0 regardless of the
nightly flag, true whenever the nightly flag is set even below 1.68.0,
and true unconditionally under `RUSTC_BOOTSTRAP` even with no version. -/
theorem supports_wasm_cases :
    (∀ cmd : CargoCommand, cmd.version = none →
      cmd.supports_substrate_runtime_env_wasm false = false) ∧
    (∀ (cmd : CargoCommand) (v : Version) (b : Bool), cmd.version = some v →
      Version.leB ⟨1, 68, 0, false⟩ v = true →
      cmd.supports_substrate_runtime_env_wasm b = true) ∧
    (∀ (cmd : CargoCommand) (v : Version) (b : Bool), cmd.version = some v →
      v.is_nightly = true →
      cmd.supports_substrate_runtime_env_wasm b = true) ∧
    (∀ cmd : CargoCommand, cmd.supports_substrate_runtime_env_wasm true = true) := by
  refine ⟨?_, ?_, ?_, ?_⟩
  · intro cmd hv
    unfold CargoCommand.supports_substrate_runtime_env_wasm CargoCommand.versionOf
    rw [hv]
    rfl
  · intro cmd v b hv hge
    rw [Version.leB_iff] at hge
    dsimp only at hge
    unfold CargoCommand.supports_substrate_runtime_env_wasm CargoCommand.versionOf
    rw [hv]
    cases b with
    | true => rfl
    | false =>
      show (decide (v.major > 1) ||
        (decide (v.major = 1) && decide (v.minor ≥ 68)) || v.is_nightly) = true
      simp only [Bool.or_eq_true, Bool.and_eq_true, decide_eq_true_eq]
      left
      omega
  · intro cmd v b hv hn
    unfold CargoCommand.supports_substrate_runtime_env_wasm CargoCommand.versionOf
    rw [hv]
    cases b with
    | true => rfl
    | false => simp [hn]
  · intro cmd
    unfold CargoCommand.supports_substrate_runtime_env_wasm
    rfl

/-- Claim C5 witness: the four cases at concrete commands — no version
(false), stable 1.68.0 (true), nightly 1.60.0 (true), and bootstrap with
no version (true). -/
theorem supports_wasm_cases_witness :
    CargoCommand.supports_substrate_runtime_env_wasm
      { program := "cargo", args := [], version := none, target_list := none }
      false = false ∧
    CargoCommand.supports_substrate_runtime_env_wasm
      { program := "cargo", args := [],
        version := some ⟨1, 68, 0, false⟩, target_list := none } false = true ∧
    CargoCommand.supports_substrate_runtime_env_wasm
      { program := "cargo", args := [],
        version := some ⟨1, 60, 0, true⟩, target_list := none } false = true ∧
    CargoCommand.supports_substrate_runtime_env_wasm
      { program := "cargo", args := [], version := none, target_list := none }
      true = true :=
  ⟨supports_wasm_cases.1 _ rfl,
    supports_wasm_cases.2.1 _ ⟨1, 68, 0, false⟩ false rfl (by decide),
    supports_wasm_cases.2.2.1 _ ⟨1, 60, 0, true⟩ false rfl rfl,
    supports_wasm_cases.2.2.2 _⟩

/-- Claim C6: the RISC-V supports predicate holds exactly when the
probed target list is present and contains the exact string
"riscv32ema-unknown-none-elf"; it is false when the list is absent, a
near-miss superstring does not match, and the probed version plays no
role in the decision. -/
theorem supports_riscv_iff_exact_target_listed :
    (∀ cmd : CargoCommand,
      cmd.supports_substrate_runtime_env_riscv = true ↔
        ∃ l, cmd.target_list = some l ∧ "riscv32ema-unknown-none-elf" ∈ l) ∧
    (∀ cmd : CargoCommand, cmd.target_list = none →
      cmd.supports_substrate_runtime_env_riscv = false) ∧
    (∀ (cmd : CargoCommand) (v : Option Version),
      CargoCommand.supports_substrate_runtime_env_riscv
          { cmd with version := v } =
        cmd.supports_substrate_runtime_env_riscv) ∧
    CargoCommand.supports_substrate_runtime_env_riscv
      { program := "cargo", args := [], version := none,
        target_list := some ["riscv32ema-unknown-none-elf-extra",
          "wasm32-unknown-unknown"] } = false := by
  refine ⟨?_, ?_, ?_, by decide⟩
  · intro cmd
    unfold CargoCommand.supports_substrate_runtime_env_riscv
    cases h : cmd.target_list with
    | none => simp
    | some l => simp
  · intro cmd h
    unfold CargoCommand.supports_substrate_runtime_env_riscv
    rw [h]
  · intro cmd v
    unfold CargoCommand.supports_substrate_runtime_env_riscv
    rfl

/-- Claim C6 witness: the absent-list case instantiated at a concrete
command. -/
theorem supports_riscv_iff_exact_target_listed_witness :
    CargoCommand.supports_substrate_runtime_env_riscv
      { program := "cargo", args := [], version := none,
        target_list := none } = false ∧
    CargoCommand.supports_substrate_runtime_env_riscv
      { program := "cargo", args := [], version := none,
        target_list := some ["riscv32ema-unknown-none-elf"] } = true :=
  ⟨supports_riscv_iff_exact_target_listed.2.1 _ rfl,
    (supports_riscv_iff_exact_target_listed.1 _).mpr
      ⟨["riscv32ema-unknown-none-elf"], rfl, by decide⟩⟩

/-- Claim C7: with no pinned toolchain the resolver short-circuits in
strict order: the `CARGO` candidate is returned if it supports the
target; otherwise the bare `cargo` candidate is returned if it supports
the target; only otherwise is the rustup enumeration consulted (with the
default cargo as final fallback). -/
theorem resolver_candidate_order_short_circuits (w : ProbeWorld)
    (env : BuildEnv) (t : RuntimeTarget)
    (hpin : env.wasm_build_toolchain = none) :
    ((CargoCommand.new w env.cargo_var).supports_substrate_runtime_env
        env.rustc_bootstrap t = true →
      get_cargo_command w env t = CargoCommand.new w env.cargo_var) ∧
    ((CargoCommand.new w env.cargo_var).supports_substrate_runtime_env
        env.rustc_bootstrap t = false →
      (CargoCommand.new w "cargo").supports_substrate_runtime_env
        env.rustc_bootstrap t = true →
      get_cargo_command w env t = CargoCommand.new w "cargo") ∧
    ((CargoCommand.new w env.cargo_var).supports_substrate_runtime_env
        env.rustc_bootstrap t = false →
      (CargoCommand.new w "cargo").supports_substrate_runtime_env
        env.rustc_bootstrap t = false →
      get_cargo_command w env t =
        (get_rustup_command w env.rustc_bootstrap t).getD
          (CargoCommand.new w "cargo")) := by
  refine ⟨?_, ?_, ?_⟩
  · intro h1
    unfold get_cargo_command
    rw [hpin]
    dsimp only
    rw [h1]
    simp
  · intro h1 h2
    unfold get_cargo_command
    rw [hpin]
    dsimp only
    rw [h1, h2]
    simp
  · intro h1 h2
    unfold get_cargo_command
    rw [hpin]
    dsimp only
    rw [h1, h2]
    simp

/-- Claim C7 witness: a concrete world in which the `CARGO` candidate
(a nightly 1.70.0) supports Wasm and is returned ahead of the default
cargo. -/
theorem resolver_candidate_order_short_circuits_witness :
    get_cargo_command dualWorld optCargoEnv RuntimeTarget.Wasm =
      CargoCommand.new dualWorld "/opt/cargo" :=
  (resolver_candidate_order_short_circuits dualWorld optCargoEnv
    RuntimeTarget.Wasm rfl).1 rfl

/-- Claim C8: an unrecognized `SUBSTRATE_RUNTIME_TARGET` value and a
malformed boolean-style override are fatal: both functions terminate the
process with a nonzero exit status (modelled as `Except.error`). -/
theorem invalid_configuration_values_exit_nonzero :
    (∀ v : String, v ≠ "wasm" → v ≠ "riscv" →
      ∃ c, c ≠ 0 ∧ runtime_target (some v) = Except.error c) ∧
    (∀ v : String, v ≠ "1" → v ≠ "0" →
      ∃ c, c ≠ 0 ∧ get_bool_environment_variable (some v) = Except.error c) := by
  constructor
  · intro v h1 h2
    exact ⟨1, one_ne_zero, by simp [runtime_target, h1, h2]⟩
  · intro v h1 h2
    exact ⟨1, one_ne_zero, by simp [get_bool_environment_variable, h1, h2]⟩

/-- Claim C8 witness: the fatal exits at the concrete invalid values
"linux" and "yes". -/
theorem invalid_configuration_values_exit_nonzero_witness :
    (∃ c, c ≠ 0 ∧ runtime_target (some "linux") = Except.error c) ∧
    (∃ c, c ≠ 0 ∧ get_bool_environment_variable (some "yes") = Except.error c) :=
  ⟨invalid_configuration_values_exit_nonzero.1 "linux" (by decide) (by decide),
    invalid_configuration_values_exit_nonzero.2 "yes" (by decide) (by decide)⟩

/-- Claim C9: a successful rustup search only ever selects a toolchain
whose version was probed and parsed and which supports the requested
target; a target-capable toolchain with an unparsable version output can
never be the selected one. -/
theorem rustup_selection_requires_probed_version (w : ProbeWorld) (b : Bool)
    (t : RuntimeTarget) (cmd : CargoCommand)
    (h : get_rustup_command w b t = some cmd) :
    cmd.version.isSome = true ∧
    cmd.supports_substrate_runtime_env b t = true := by
  rcases get_rustup_command_eq_some h with
    ⟨lines, _, chosen, hmem, hcmd, _⟩
  rcases List.mem_filterMap.mp hmem with ⟨line, _, hentry⟩
  rcases rustupEntry_eq_some hentry with ⟨hver, hsup⟩
  subst hcmd
  exact ⟨by rw [hver]; rfl, hsup⟩

/-- Claim C9 witness: in a world where the `custom` toolchain lists the
RISC-V target but its version probe fails and the `good` toolchain lists
it with a probed version, the selected command is target-capable and has
a probed version (and indeed `custom` was skipped in favor of `good`). -/
theorem rustup_selection_requires_probed_version_witness :
    (CargoCommand.new_with_args riscvWorld "rustup"
        ["run", "custom", "cargo"]).supports_substrate_runtime_env
      false RuntimeTarget.Riscv = true ∧
    (CargoCommand.new_with_args riscvWorld "rustup"
        ["run", "custom", "cargo"]).version = none ∧
    get_rustup_command riscvWorld false RuntimeTarget.Riscv =
      some (CargoCommand.new_with_args riscvWorld "rustup"
        ["run", "good", "cargo"]) ∧
    ((CargoCommand.new_with_args riscvWorld "rustup"
        ["run", "good", "cargo"]).version.isSome = true ∧
      (CargoCommand.new_with_args riscvWorld "rustup"
        ["run", "good", "cargo"]).supports_substrate_runtime_env
        false RuntimeTarget.Riscv = true) :=
  ⟨rfl, rfl, by decide,
    rustup_selection_requires_probed_version riscvWorld false
      RuntimeTarget.Riscv _ (by decide)⟩

/-- Claim C10: with `WASM_BUILD_STD` unset, building the standard
library defaults to true exactly for the Wasm runtime target and to
false for the Riscv runtime target. -/
theorem build_std_default_by_target (tv : Option String) :
    (runtime_target tv = Except.ok RuntimeTarget.Wasm →
      build_std_required tv none = Except.ok true) ∧
    (runtime_target tv = Except.ok RuntimeTarget.Riscv →
      build_std_required tv none = Except.ok false) := by
  constructor
  · intro h
    unfold build_std_required
    rw [h]
    rfl
  · intro h
    unfold build_std_required
    rw [h]
    rfl

/-- Claim C10 witness: the defaults at the concrete selector values
(unset, hence Wasm) and "riscv". -/
theorem build_std_default_by_target_witness :
    build_std_required none none = Except.ok true ∧
    build_std_required (some "riscv") none = Except.ok false :=
  ⟨(build_std_default_by_target none).1 rfl,
    (build_std_default_by_target (some "riscv")).2 rfl⟩

end WasmBuilder
